import Mathlib

/-!
Verification of the AWS autoscaling/load-balancer provisioning pipeline
(`main.go`) against its natural-language specification.

The Go program is a straight-line orchestrator: it issues a fixed sequence of
AWS control-plane calls, each consuming identifiers returned by earlier calls,
and aborts on the first error (`logger.Fatal`).  We embed it shallowly:

* every control-plane request the program can issue is a constructor of `Call`,
  carrying the Go `context.Context` it was issued with (`Ctx.pipeline` for the
  6-minute `context.WithTimeout` context created in `main`, `Ctx.todo` for
  `context.TODO()`) together with the request's fields;
* the cloud provider is a `Provider`: one response function per API operation
  (the responses are the only external nondeterminism besides `uuid.NewString`,
  which we model as a supply `Nat → String` consumed left to right, and the
  `os.ReadFile` result for the bootstrap payload, passed in as an `Except`);
* each Go function becomes a Lean function threading a state `St` that records
  the trace of issued calls and the number of uuids drawn so far;
* `Res` is the outcome of a step: `ok`, `fatal` (an error returned to `main`,
  where `logger.Fatal` stops the run) or `crash` (a Go runtime panic from
  indexing an empty response slice, `output.LoadBalancers[0]` /
  `output.TargetGroups[0]`).
-/

namespace AwsStack

/-- The Go `context.Context` handed to a provider call: the pipeline-wide
`context.WithTimeout` context from `main`, or a fresh `context.TODO()`. -/
inductive Ctx where
  | pipeline : Ctx
  | todo : Ctx
deriving DecidableEq, Repr

/-- `types.IpRange`. -/
structure IpRange where
  cidrIp : String
deriving DecidableEq, Repr

/-- `types.IpPermission`: one ingress rule. -/
structure IpPermission where
  ipProtocol : String
  fromPort : Int
  toPort : Int
  ipRanges : List IpRange
deriving DecidableEq, Repr

/-- `elbTypes.TargetGroupTuple`. -/
structure TargetGroupTuple where
  targetGroupArn : String
deriving DecidableEq, Repr

/-- `elbTypes.ForwardActionConfig`. -/
structure ForwardActionConfig where
  targetGroups : List TargetGroupTuple
deriving DecidableEq, Repr

/-- `elbTypes.Action`: a listener default action. -/
structure ElbAction where
  type : String
  forwardConfig : ForwardActionConfig
deriving DecidableEq, Repr

/-- One provider control-plane request, with the context it was issued under
and its request fields, exactly as built by `main.go`.  `registerTargets` is
the ELB RegisterTargets operation: the program never issues it (the
autoscaling group manages target membership), but it is part of the API
surface the spec talks about, so it has a constructor. -/
inductive Call where
  | createVpc : Ctx → String → Call
  | modifyVpcAttribute : Ctx → String → Bool → Call
  | createInternetGateway : Ctx → Call
  | attachInternetGateway : Ctx → String → String → Call
  | createRouteTable : Ctx → String → Call
  | createRoute : Ctx → String → String → String → Call
  | createSubnet : Ctx → String → String → String → Call
  | modifySubnetAttribute : Ctx → String → Bool → Call
  | associateRouteTable : Ctx → String → String → Call
  | createSecurityGroup : Ctx → String → String → String → Call
  | authorizeSecurityGroupIngress : Ctx → String → List IpPermission → Call
  | createLaunchTemplate : Ctx → String → String → String → String → List String → Call
  | createTargetGroup : Ctx → String → String → Int → String → String → Call
  | createAutoScalingGroup : Ctx → String → String → String → Int → Int → List String → String → Call
  | putScalingPolicy : Ctx → String → String → String → ℚ → String → Call
  | createLoadBalancer : Ctx → String → String → List String → List String → String → String → Call
  | createListener : Ctx → String → String → Int → List ElbAction → Call
  | registerTargets : Ctx → String → List String → Call
deriving DecidableEq, Repr

/-- The context a call was issued with. -/
def ctxOf : Call → Ctx
  | .createVpc c _ => c
  | .modifyVpcAttribute c _ _ => c
  | .createInternetGateway c => c
  | .attachInternetGateway c _ _ => c
  | .createRouteTable c _ => c
  | .createRoute c _ _ _ => c
  | .createSubnet c _ _ _ => c
  | .modifySubnetAttribute c _ _ => c
  | .associateRouteTable c _ _ => c
  | .createSecurityGroup c _ _ _ => c
  | .authorizeSecurityGroupIngress c _ _ => c
  | .createLaunchTemplate c _ _ _ _ _ => c
  | .createTargetGroup c _ _ _ _ _ => c
  | .createAutoScalingGroup c _ _ _ _ _ _ _ => c
  | .putScalingPolicy c _ _ _ _ _ => c
  | .createLoadBalancer c _ _ _ _ _ _ => c
  | .createListener c _ _ _ _ => c
  | .registerTargets c _ _ => c

/-- Constants from `main.go` (the `const` block).  The Go float constant
`AWSAutoScalingCPUThreshold = 30.0` is the exact value 30; it is only passed
through to the provider, never computed with, so we model it in `ℚ`. -/
def AWSAmiID : String := "ami-01816d07b1128cd2d"

def AWSLaunchTemplatePrefixStr : String := "webservice-launch-template-"

def AWSLaunchTemplateVersion : String := "$Latest"

def AWSSecurityGroupPrefixStr : String := "webservice-sg-"

def AWSAutoscalingGroupPrefixStr : String := "webservice-sg-"

def AWSAutoscalingPolicyPrefixStr : String := "webservice-sg-"

def AWSSecurityGroupDescription : String := "Security group for port 8080 access"

def AWSAutoscalingPolicyType : String := "TargetTrackingScaling"

def AWSMinEC2Count : Int := 2

def AWSMaxEC2Count : Int := 5

def AWSAutoScalingCPUThreshold : ℚ := 30

/-- `AWSSubnetAvailabilityZones`: in Go a `map[string]string`, iterated with
`range` (iteration order unspecified); modelled as the list of its entries in
declaration order. -/
def AWSSubnetAvailabilityZones : List (String × String) :=
  [("10.0.1.0/24", "us-east-1a"), ("10.0.2.0/24", "us-east-1b")]

/-- The base64 standard alphabet. -/
def base64Alphabet : List Char :=
  "ABCDEFGHIJKLMNOPQRSTUVWXYZabcdefghijklmnopqrstuvwxyz0123456789+/".toList

/-- Character `n` of the base64 alphabet. -/
def b64c (n : Nat) : Char := base64Alphabet.getD n 'A'

/-- `base64.StdEncoding.EncodeToString` on a byte list. -/
def base64Encode : List Nat → String
  | [] => ""
  | [a] =>
      String.mk [b64c (a / 4 % 64), b64c (a % 4 * 16)] ++ "=="
  | [a, b] =>
      String.mk [b64c (a / 4 % 64), b64c (a % 4 * 16 + b / 16 % 16), b64c (b % 16 * 4)] ++ "="
  | a :: b :: c :: rest =>
      String.mk [b64c (a / 4 % 64), b64c (a % 4 * 16 + b / 16 % 16),
        b64c (b % 16 * 4 + c / 64 % 4), b64c (c % 64)] ++ base64Encode rest

/-- The cloud provider: one response function per control-plane operation,
taking the request fields the Go code fills in.  `createTargetGroupR` and
`createLoadBalancerR` answer with the response *list* (`TargetGroups` /
`LoadBalancers`), since the Go code indexes `[0]` into it. -/
structure Provider where
  createVpcR : String → Except String String
  modifyVpcAttributeR : String → Bool → Except String Unit
  createInternetGatewayR : Except String String
  attachInternetGatewayR : String → String → Except String Unit
  createRouteTableR : String → Except String String
  createRouteR : String → String → String → Except String Unit
  createSubnetR : String → String → String → Except String String
  modifySubnetAttributeR : String → Bool → Except String Unit
  associateRouteTableR : String → String → Except String Unit
  createSecurityGroupR : String → String → String → Except String String
  authorizeSecurityGroupIngressR : String → List IpPermission → Except String Unit
  createLaunchTemplateR : String → String → String → String → List String → Except String String
  createTargetGroupR : String → String → Int → String → String → Except String (List String)
  createAutoScalingGroupR : String → String → String → Int → Int → List String → String → Except String Unit
  putScalingPolicyR : String → String → String → ℚ → String → Except String Unit
  createLoadBalancerR : String → String → List String → List String → String → String → Except String (List String)
  createListenerR : String → String → Int → List ElbAction → Except String Unit

/-- Run state: the trace of issued provider calls and the number of
`uuid.NewString` draws made so far. -/
structure St where
  trace : List Call
  uuidCount : Nat
deriving DecidableEq, Repr

/-- Append an issued call to the trace. -/
def issue (c : Call) (s : St) : St :=
  { s with trace := s.trace ++ [c] }

/-- Outcome of a pipeline step: success, an error returned to `main` (where
`logger.Fatal` aborts the run), or a Go runtime panic (out-of-range index). -/
inductive Res (α : Type) where
  | ok : α → Res α
  | fatal : String → Res α
  | crash : Res α
deriving DecidableEq, Repr

/-- Sequencing in `main`: on `ok` continue with the produced identifier, on
`fatal` the run stops (`logger.Fatal`), a crash propagates. -/
def stepBind {α β : Type} (r : Res α × St) (f : α → St → Res β × St) : Res β × St :=
  match r with
  | (.ok a, s) => f a s
  | (.fatal e, s) => (.fatal e, s)
  | (.crash, s) => (.crash, s)

/-- `CreateVPC`: create the VPC with the fixed CIDR, then enable DNS
hostnames on it. -/
def CreateVPC (p : Provider) (s : St) : Res String × St :=
  let s1 := issue (.createVpc .pipeline "10.0.0.0/16") s
  match p.createVpcR "10.0.0.0/16" with
  | .error e => (.fatal ("error creating VPC: " ++ e), s1)
  | .ok vpcID =>
    let s2 := issue (.modifyVpcAttribute .pipeline vpcID true) s1
    match p.modifyVpcAttributeR vpcID true with
    | .error e => (.fatal ("error enabling DNS hostnames: " ++ e), s2)
    | .ok _ => (.ok vpcID, s2)

/-- `CreateInternetGateway`: create the gateway, then attach it to the VPC.
The attach call is issued with `context.TODO()` in the source, not the
pipeline context. -/
def CreateInternetGateway (p : Provider) (vpcID : String) (s : St) : Res String × St :=
  let s1 := issue (.createInternetGateway .pipeline) s
  match p.createInternetGatewayR with
  | .error e => (.fatal ("error creating internet gateway: " ++ e), s1)
  | .ok internetGatewayID =>
    let s2 := issue (.attachInternetGateway .todo internetGatewayID vpcID) s1
    match p.attachInternetGatewayR internetGatewayID vpcID with
    | .error e => (.fatal ("error attaching internet gateway to VPC: " ++ e), s2)
    | .ok _ => (.ok internetGatewayID, s2)

/-- The `for cidrBlock, availabilityZone := range AWSSubnetAvailabilityZones`
loop body of `CreateSubnets`: create each subnet, enable auto-assign public
IPv4, associate it with the shared route table. -/
def subnetLoop (p : Provider) (vpcID routeTableID : String)
    (pairs : List (String × String)) (acc : List String) (s : St) :
    Res (List String) × St :=
  match pairs with
  | [] => (.ok acc, s)
  | (cidrBlock, availabilityZone) :: rest =>
    let s1 := issue (.createSubnet .pipeline vpcID cidrBlock availabilityZone) s
    match p.createSubnetR vpcID cidrBlock availabilityZone with
    | .error e => (.fatal ("error creating subnet: " ++ e), s1)
    | .ok subnetID =>
      let s2 := issue (.modifySubnetAttribute .pipeline subnetID true) s1
      match p.modifySubnetAttributeR subnetID true with
      | .error e => (.fatal ("error enabling auto-assign public IPv4: " ++ e), s2)
      | .ok _ =>
        let s3 := issue (.associateRouteTable .pipeline routeTableID subnetID) s2
        match p.associateRouteTableR routeTableID subnetID with
        | .error e => (.fatal ("error associating route table: " ++ e), s3)
        | .ok _ => subnetLoop p vpcID routeTableID rest (acc ++ [subnetID]) s3

/-- `CreateSubnets`: create the shared route table, add the default route to
the internet gateway, then run the per-pair loop. -/
def CreateSubnets (p : Provider) (vpcID internetGatewayID : String) (s : St) :
    Res (List String) × St :=
  let s1 := issue (.createRouteTable .pipeline vpcID) s
  match p.createRouteTableR vpcID with
  | .error e => (.fatal ("error creating route table: " ++ e), s1)
  | .ok routeTableID =>
    let s2 := issue (.createRoute .pipeline routeTableID "0.0.0.0/0" internetGatewayID) s1
    match p.createRouteR routeTableID "0.0.0.0/0" internetGatewayID with
    | .error e => (.fatal ("error creating route to internet gateway: " ++ e), s2)
    | .ok _ => subnetLoop p vpcID routeTableID AWSSubnetAvailabilityZones [] s2

/-- The `IpPermissions` literal passed to `AuthorizeSecurityGroupIngress`:
TCP 8080, 80 and 443, each from `0.0.0.0/0`. -/
def ec2IngressPermissions : List IpPermission :=
  [ { ipProtocol := "tcp", fromPort := 8080, toPort := 8080,
      ipRanges := [{ cidrIp := "0.0.0.0/0" }] },
    { ipProtocol := "tcp", fromPort := 80, toPort := 80,
      ipRanges := [{ cidrIp := "0.0.0.0/0" }] },
    { ipProtocol := "tcp", fromPort := 443, toPort := 443,
      ipRanges := [{ cidrIp := "0.0.0.0/0" }] } ]

/-- `CreateSecurityGroup`: create a group named prefix + `uuid.NewString()`,
then authorize the fixed ingress rule list. -/
def CreateSecurityGroup (p : Provider) (g : Nat → String) (vpcID : String) (s : St) :
    Res String × St :=
  let sgName := AWSSecurityGroupPrefixStr ++ g s.uuidCount
  let s0 : St := { s with uuidCount := s.uuidCount + 1 }
  let s1 := issue (.createSecurityGroup .pipeline sgName AWSSecurityGroupDescription vpcID) s0
  match p.createSecurityGroupR sgName AWSSecurityGroupDescription vpcID with
  | .error e => (.fatal ("error creating security group: " ++ e), s1)
  | .ok groupID =>
    let s2 := issue (.authorizeSecurityGroupIngress .pipeline groupID ec2IngressPermissions) s1
    match p.authorizeSecurityGroupIngressR groupID ec2IngressPermissions with
    | .error e => (.fatal ("error adding inbound (ingress) rule for port 8080: " ++ e), s2)
    | .ok _ => (.ok groupID, s2)

/-- `CreateLaunchTemplate`: read `user_data.sh` (the read result is passed in,
since the file system is external), base64-encode it, and register the launch
template.  On a read error the function returns before any provider call. -/
def CreateLaunchTemplate (p : Provider) (g : Nat → String)
    (userDataFile : Except String (List Nat)) (securityGroupID : String) (s : St) :
    Res String × St :=
  match userDataFile with
  | .error e => (.fatal ("error reading user_data.sh file: " ++ e), s)
  | .ok userDataBytes =>
    let base64UserData := base64Encode userDataBytes
    let ltName := AWSLaunchTemplatePrefixStr ++ g s.uuidCount
    let s0 : St := { s with uuidCount := s.uuidCount + 1 }
    let s1 := issue (.createLaunchTemplate .pipeline ltName base64UserData AWSAmiID
      "t2.micro" [securityGroupID]) s0
    match p.createLaunchTemplateR ltName base64UserData AWSAmiID "t2.micro" [securityGroupID] with
    | .error e => (.fatal ("error creating launch template: " ++ e), s1)
    | .ok launchTemplateID => (.ok launchTemplateID, s1)

/-- `CreateTargetGroup`: create the target group (fixed name, HTTP, port 8080,
instance targets) and take `TargetGroups[0]` of the response — a runtime
crash if the response list is empty. -/
def CreateTargetGroup (p : Provider) (vpcID : String) (s : St) : Res String × St :=
  let s1 := issue (.createTargetGroup .pipeline "webservice-target-group" "HTTP" 8080
    vpcID "instance") s
  match p.createTargetGroupR "webservice-target-group" "HTTP" 8080 vpcID "instance" with
  | .error e => (.fatal ("error creating target group: " ++ e), s1)
  | .ok tgs =>
    match tgs with
    | [] => (.crash, s1)
    | tgARN :: _ => (.ok tgARN, s1)

/-- `CreateAutoscalingGroup`: create the autoscaling group (name
prefix + uuid, configured launch template, min/max bounds, the one target
group, the comma-joined subnet list), then put the target-tracking scaling
policy with the configured CPU threshold. -/
def CreateAutoscalingGroup (p : Provider) (g : Nat → String)
    (launchTemplateID targetGroupARN : String) (subnetIDs : List String) (s : St) :
    Res Unit × St :=
  let autoscalingGroupName := AWSAutoscalingGroupPrefixStr ++ g s.uuidCount
  let s0 : St := { s with uuidCount := s.uuidCount + 1 }
  let s1 := issue (.createAutoScalingGroup .pipeline autoscalingGroupName launchTemplateID
    AWSLaunchTemplateVersion AWSMinEC2Count AWSMaxEC2Count [targetGroupARN]
    (String.intercalate "," subnetIDs)) s0
  match p.createAutoScalingGroupR autoscalingGroupName launchTemplateID
      AWSLaunchTemplateVersion AWSMinEC2Count AWSMaxEC2Count [targetGroupARN]
      (String.intercalate "," subnetIDs) with
  | .error e => (.fatal ("error creating autoscaling group: " ++ e), s1)
  | .ok _ =>
    let policyName := AWSAutoscalingPolicyPrefixStr ++ g s1.uuidCount
    let s2 : St := { s1 with uuidCount := s1.uuidCount + 1 }
    let s3 := issue (.putScalingPolicy .pipeline autoscalingGroupName policyName
      AWSAutoscalingPolicyType AWSAutoScalingCPUThreshold "ASGAverageCPUUtilization") s2
    match p.putScalingPolicyR autoscalingGroupName policyName AWSAutoscalingPolicyType
        AWSAutoScalingCPUThreshold "ASGAverageCPUUtilization" with
    | .error e => (.fatal ("error creating autoscaling policy: " ++ e), s3)
    | .ok _ => (.ok (), s3)

/-- `CreateLoadBalancer`: create the internet-facing application load
balancer (fixed name, all subnets, the security group) and take
`LoadBalancers[0]` of the response — a runtime crash if the response list is
empty. -/
def CreateLoadBalancer (p : Provider) (subnetIDs : List String)
    (securityGroupID : String) (s : St) : Res String × St :=
  let s1 := issue (.createLoadBalancer .pipeline "webservice-load-balancer" "internet-facing"
    subnetIDs [securityGroupID] "ipv4" "application") s
  match p.createLoadBalancerR "webservice-load-balancer" "internet-facing" subnetIDs
      [securityGroupID] "ipv4" "application" with
  | .error e => (.fatal ("error creating load balancer: " ++ e), s1)
  | .ok lbs =>
    match lbs with
    | [] => (.crash, s1)
    | lbARN :: _ => (.ok lbARN, s1)

/-- `CreateListener`: create the HTTP:80 listener on the load balancer with a
single forward action to the one target group. -/
def CreateListener (p : Provider) (loadBalancerARN targetGroupARN : String) (s : St) :
    Res Unit × St :=
  let actions : List ElbAction :=
    [{ type := "forward",
       forwardConfig := { targetGroups := [{ targetGroupArn := targetGroupARN }] } }]
  let s1 := issue (.createListener .pipeline loadBalancerARN "HTTP" 80 actions) s
  match p.createListenerR loadBalancerARN "HTTP" 80 actions with
  | .error e => (.fatal ("error creating listener: " ++ e), s1)
  | .ok _ => (.ok (), s1)

/-- `main` (after `.env` and AWS-config loading, which are external): the
nine-step pipeline, aborting at the first failing step. -/
def main (p : Provider) (g : Nat → String) (userDataFile : Except String (List Nat)) :
    Res Unit × St :=
  stepBind (CreateVPC p { trace := [], uuidCount := 0 }) (fun vpcID s =>
    stepBind (CreateInternetGateway p vpcID s) (fun internetGatewayID s =>
      stepBind (CreateSubnets p vpcID internetGatewayID s) (fun subnetIDs s =>
        stepBind (CreateSecurityGroup p g vpcID s) (fun securityGroupID s =>
          stepBind (CreateLaunchTemplate p g userDataFile securityGroupID s)
            (fun launchTemplateID s =>
            stepBind (CreateTargetGroup p vpcID s) (fun targetGroupARN s =>
              stepBind (CreateAutoscalingGroup p g launchTemplateID targetGroupARN subnetIDs s)
                (fun _ s =>
                stepBind (CreateLoadBalancer p subnetIDs securityGroupID s)
                  (fun loadBalancerARN s =>
                  CreateListener p loadBalancerARN targetGroupARN s))))))))

/-- A provider on which every call succeeds, with deterministic identifiers:
the concrete environment for end-to-end runs. -/
def happyProvider : Provider where
  createVpcR := fun _ => .ok "vpc-1"
  modifyVpcAttributeR := fun _ _ => .ok ()
  createInternetGatewayR := .ok "igw-1"
  attachInternetGatewayR := fun _ _ => .ok ()
  createRouteTableR := fun _ => .ok "rtb-1"
  createRouteR := fun _ _ _ => .ok ()
  createSubnetR := fun _ cidr _ => .ok ("subnet-" ++ cidr)
  modifySubnetAttributeR := fun _ _ => .ok ()
  associateRouteTableR := fun _ _ => .ok ()
  createSecurityGroupR := fun _ _ _ => .ok "sg-1"
  authorizeSecurityGroupIngressR := fun _ _ => .ok ()
  createLaunchTemplateR := fun _ _ _ _ _ => .ok "lt-1"
  createTargetGroupR := fun _ _ _ _ _ => .ok ["tg-arn-1"]
  createAutoScalingGroupR := fun _ _ _ _ _ _ _ => .ok ()
  putScalingPolicyR := fun _ _ _ _ _ => .ok ()
  createLoadBalancerR := fun _ _ _ _ _ _ => .ok ["lb-arn-1"]
  createListenerR := fun _ _ _ _ => .ok ()

/-- `happyProvider` with the create-load-balancer call failing with error
`e`: the fault-injection environment of the spec's load-balancer scenario. -/
def lbFailProvider (e : String) : Provider :=
  { happyProvider with createLoadBalancerR := fun _ _ _ _ _ _ => .error e }

/-- Component index of a call under the SPEC CLAIM's declared order: network,
gateway, subnets, security group, launch template, compute, target group,
load balancer, listener. -/
def claimOrderIdx : Call → Nat
  | .createVpc _ _ => 0
  | .modifyVpcAttribute _ _ _ => 0
  | .createInternetGateway _ => 1
  | .attachInternetGateway _ _ _ => 1
  | .createRouteTable _ _ => 2
  | .createRoute _ _ _ _ => 2
  | .createSubnet _ _ _ _ => 2
  | .modifySubnetAttribute _ _ _ => 2
  | .associateRouteTable _ _ _ => 2
  | .createSecurityGroup _ _ _ _ => 3
  | .authorizeSecurityGroupIngress _ _ _ => 3
  | .createLaunchTemplate _ _ _ _ _ _ => 4
  | .createAutoScalingGroup _ _ _ _ _ _ _ _ => 5
  | .putScalingPolicy _ _ _ _ _ _ => 5
  | .registerTargets _ _ _ => 5
  | .createTargetGroup _ _ _ _ _ _ => 6
  | .createLoadBalancer _ _ _ _ _ _ _ => 7
  | .createListener _ _ _ _ _ => 8

/-- Component index of a call under the CODE's actual order: network,
gateway, subnets, security group, launch template, target group, compute,
load balancer, listener. -/
def codeOrderIdx : Call → Nat
  | .createVpc _ _ => 0
  | .modifyVpcAttribute _ _ _ => 0
  | .createInternetGateway _ => 1
  | .attachInternetGateway _ _ _ => 1
  | .createRouteTable _ _ => 2
  | .createRoute _ _ _ _ => 2
  | .createSubnet _ _ _ _ => 2
  | .modifySubnetAttribute _ _ _ => 2
  | .associateRouteTable _ _ _ => 2
  | .createSecurityGroup _ _ _ _ => 3
  | .authorizeSecurityGroupIngress _ _ _ => 3
  | .createLaunchTemplate _ _ _ _ _ _ => 4
  | .createTargetGroup _ _ _ _ _ _ => 5
  | .createAutoScalingGroup _ _ _ _ _ _ _ _ => 6
  | .putScalingPolicy _ _ _ _ _ _ => 6
  | .registerTargets _ _ _ => 6
  | .createLoadBalancer _ _ _ _ _ _ _ => 7
  | .createListener _ _ _ _ _ => 8

/-- Is the call the gateway-attach operation? -/
def isAttachInternetGatewayC : Call → Bool
  | .attachInternetGateway _ _ _ => true
  | _ => false

/-- Is the call a listener creation? -/
def isCreateListenerC : Call → Bool
  | .createListener _ _ _ _ _ => true
  | _ => false

/-- Is the call a target registration? -/
def isRegisterTargetsC : Call → Bool
  | .registerTargets _ _ _ => true
  | _ => false

/-- Is the call a route-table creation? -/
def isCreateRouteTableC : Call → Bool
  | .createRouteTable _ _ => true
  | _ => false

/-- Is the call a route creation? -/
def isCreateRouteC : Call → Bool
  | .createRoute _ _ _ _ => true
  | _ => false

/-- Is the call a subnet creation? -/
def isCreateSubnetC : Call → Bool
  | .createSubnet _ _ _ _ => true
  | _ => false

/-- Is the call a route-table association? -/
def isAssociateRouteTableC : Call → Bool
  | .associateRouteTable _ _ _ => true
  | _ => false

/-- Is the call a load-balancer creation? -/
def isCreateLoadBalancerC : Call → Bool
  | .createLoadBalancer _ _ _ _ _ _ _ => true
  | _ => false

/-- Is the call a target-group creation? -/
def isCreateTargetGroupC : Call → Bool
  | .createTargetGroup _ _ _ _ _ _ => true
  | _ => false

/-- Is the call a launch-template creation? -/
def isCreateLaunchTemplateC : Call → Bool
  | .createLaunchTemplate _ _ _ _ _ _ => true
  | _ => false

/-- Error type of the direct-launch compute variant, distinguishing a
provider rejection of the launch from a wait timeout. -/
inductive ComputeError where
  | rejected : String → ComputeError
  | timeout : ComputeError
deriving DecidableEq, Repr

/-- Modelled from the spec: the bounded poll loop of the direct-launch
compute variant (spec section 4.6), which is absent from `src/main.go` (the
code implements only the autoscaling variant).  `allRunningAt t` reports
whether every requested instance is in the running state at poll attempt
`t`; the loop makes at most `fuel` attempts starting at attempt `t0` and
returns the first attempt at which all instances are running, if any. -/
def pollUntilAllRunning (allRunningAt : Nat → Bool) : Nat → Nat → Option Nat
  | _, 0 => none
  | t0, Nat.succ fuel =>
    if allRunningAt t0 then some t0 else pollUntilAllRunning allRunningAt (t0 + 1) fuel

/-- Modelled from the spec: the direct-launch compute variant (spec section
4.6), absent from `src/main.go`.  Request a fixed batch of instances from
the launch template (`launch` is the provider's response: a rejection or the
launched instance IDs), then poll — bounded by `maxAttempts` — until every
launched instance reports a running state, returning all their IDs; if the
bound is exhausted first, fail with the timeout error, distinct from the
rejection error. -/
def directLaunchCompute (launch : Except String (List String))
    (running : Nat → String → Bool) (maxAttempts : Nat) :
    Except ComputeError (List String) :=
  match launch with
  | .error e => .error (.rejected e)
  | .ok instanceIDs =>
    match pollUntilAllRunning (fun t => instanceIDs.all (running t)) 0 maxAttempts with
    | some _ => .ok instanceIDs
    | none => .error .timeout

/-- A fixed uuid supply for concrete runs. -/
def guu : Nat → String := fun _ => "u"

/-- The final state of the concrete successful run on `happyProvider`. -/
def happyFinalSt : St := (main happyProvider guu (Except.ok [])).2

/-- Full characterization of a successful pipeline run: every provider
response that the run consumed, and the exact trace — in the code's step
order (network, gateway, subnets, security group, launch template, target
group, compute, load balancer, listener), each call's request fields built
only from identifiers returned by earlier calls. -/
def PipelineRunSpec (p : Provider) (g : Nat → String)
    (u : Except String (List Nat)) (sF : St) : Prop :=
  ∃ (vpc igw rt sn1 sn2 sg lt tg lb : String) (tgRest lbRest : List String)
    (bytes : List Nat),
    u = Except.ok bytes ∧
    p.createVpcR "10.0.0.0/16" = Except.ok vpc ∧
    p.modifyVpcAttributeR vpc true = Except.ok () ∧
    p.createInternetGatewayR = Except.ok igw ∧
    p.attachInternetGatewayR igw vpc = Except.ok () ∧
    p.createRouteTableR vpc = Except.ok rt ∧
    p.createRouteR rt "0.0.0.0/0" igw = Except.ok () ∧
    p.createSubnetR vpc "10.0.1.0/24" "us-east-1a" = Except.ok sn1 ∧
    p.createSubnetR vpc "10.0.2.0/24" "us-east-1b" = Except.ok sn2 ∧
    p.createSecurityGroupR (AWSSecurityGroupPrefixStr ++ g 0)
      AWSSecurityGroupDescription vpc = Except.ok sg ∧
    p.authorizeSecurityGroupIngressR sg ec2IngressPermissions = Except.ok () ∧
    p.createLaunchTemplateR (AWSLaunchTemplatePrefixStr ++ g 1)
      (base64Encode bytes) AWSAmiID "t2.micro" [sg] = Except.ok lt ∧
    p.createTargetGroupR "webservice-target-group" "HTTP" 8080 vpc "instance" =
      Except.ok (tg :: tgRest) ∧
    p.createAutoScalingGroupR (AWSAutoscalingGroupPrefixStr ++ g 2) lt
      AWSLaunchTemplateVersion AWSMinEC2Count AWSMaxEC2Count [tg]
      (String.intercalate "," [sn1, sn2]) = Except.ok () ∧
    p.putScalingPolicyR (AWSAutoscalingGroupPrefixStr ++ g 2)
      (AWSAutoscalingPolicyPrefixStr ++ g 3) AWSAutoscalingPolicyType
      AWSAutoScalingCPUThreshold "ASGAverageCPUUtilization" = Except.ok () ∧
    p.createLoadBalancerR "webservice-load-balancer" "internet-facing" [sn1, sn2]
      [sg] "ipv4" "application" = Except.ok (lb :: lbRest) ∧
    p.createListenerR lb "HTTP" 80
      [{ type := "forward",
         forwardConfig := { targetGroups := [{ targetGroupArn := tg }] } }] =
      Except.ok () ∧
    sF.trace =
      [Call.createVpc Ctx.pipeline "10.0.0.0/16",
       Call.modifyVpcAttribute Ctx.pipeline vpc true,
       Call.createInternetGateway Ctx.pipeline,
       Call.attachInternetGateway Ctx.todo igw vpc,
       Call.createRouteTable Ctx.pipeline vpc,
       Call.createRoute Ctx.pipeline rt "0.0.0.0/0" igw,
       Call.createSubnet Ctx.pipeline vpc "10.0.1.0/24" "us-east-1a",
       Call.modifySubnetAttribute Ctx.pipeline sn1 true,
       Call.associateRouteTable Ctx.pipeline rt sn1,
       Call.createSubnet Ctx.pipeline vpc "10.0.2.0/24" "us-east-1b",
       Call.modifySubnetAttribute Ctx.pipeline sn2 true,
       Call.associateRouteTable Ctx.pipeline rt sn2,
       Call.createSecurityGroup Ctx.pipeline (AWSSecurityGroupPrefixStr ++ g 0)
         AWSSecurityGroupDescription vpc,
       Call.authorizeSecurityGroupIngress Ctx.pipeline sg ec2IngressPermissions,
       Call.createLaunchTemplate Ctx.pipeline (AWSLaunchTemplatePrefixStr ++ g 1)
         (base64Encode bytes) AWSAmiID "t2.micro" [sg],
       Call.createTargetGroup Ctx.pipeline "webservice-target-group" "HTTP" 8080
         vpc "instance",
       Call.createAutoScalingGroup Ctx.pipeline (AWSAutoscalingGroupPrefixStr ++ g 2) lt
         AWSLaunchTemplateVersion AWSMinEC2Count AWSMaxEC2Count [tg]
         (String.intercalate "," [sn1, sn2]),
       Call.putScalingPolicy Ctx.pipeline (AWSAutoscalingGroupPrefixStr ++ g 2)
         (AWSAutoscalingPolicyPrefixStr ++ g 3) AWSAutoscalingPolicyType
         AWSAutoScalingCPUThreshold "ASGAverageCPUUtilization",
       Call.createLoadBalancer Ctx.pipeline "webservice-load-balancer" "internet-facing"
         [sn1, sn2] [sg] "ipv4" "application",
       Call.createListener Ctx.pipeline lb "HTTP" 80
         [{ type := "forward",
            forwardConfig := { targetGroups := [{ targetGroupArn := tg }] } }]] ∧
    List.Pairwise (fun a b => codeOrderIdx a ≤ codeOrderIdx b) sF.trace

/-- Inversion of `stepBind`: a successful sequencing means the first step
succeeded and the continuation ran on its output. -/
theorem stepBind_eq_ok {α β : Type} {r : Res α × St} {f : α → St → Res β × St}
    {b : β} {sF : St} (h : stepBind r f = (Res.ok b, sF)) :
    ∃ a s, r = (Res.ok a, s) ∧ f a s = (Res.ok b, sF) := by
  obtain ⟨ra, rs⟩ := r
  cases ra with
  | ok a => exact ⟨a, rs, rfl, h⟩
  | fatal e => simp [stepBind] at h
  | crash => simp [stepBind] at h

/-- Inversion of a successful `CreateVPC`: both provider calls succeeded and
exactly the two calls were appended to the trace. -/
theorem createVPC_ok {p : Provider} {s : St} {v : String} {s' : St}
    (h : CreateVPC p s = (Res.ok v, s')) :
    p.createVpcR "10.0.0.0/16" = Except.ok v ∧
    p.modifyVpcAttributeR v true = Except.ok () ∧
    s'.trace = s.trace ++ [Call.createVpc Ctx.pipeline "10.0.0.0/16",
      Call.modifyVpcAttribute Ctx.pipeline v true] ∧
    s'.uuidCount = s.uuidCount := by
  unfold CreateVPC at h
  cases hv : p.createVpcR "10.0.0.0/16" with
  | error e => rw [hv] at h; simp at h
  | ok v0 =>
    rw [hv] at h
    simp only [] at h
    cases hm : p.modifyVpcAttributeR v0 true with
    | error e => rw [hm] at h; simp at h
    | ok un =>
      rw [hm] at h
      simp only [Prod.mk.injEq, Res.ok.injEq] at h
      obtain ⟨hveq, hseq⟩ := h
      subst hveq; subst hseq
      exact ⟨rfl, hm, by simp [issue], by simp [issue]⟩

/-- Inversion of a successful `CreateInternetGateway`: create and attach both
succeeded; the attach call was issued under `context.TODO()`. -/
theorem createIGW_ok {p : Provider} {vpcID : String} {s : St} {igw : String} {s' : St}
    (h : CreateInternetGateway p vpcID s = (Res.ok igw, s')) :
    p.createInternetGatewayR = Except.ok igw ∧
    p.attachInternetGatewayR igw vpcID = Except.ok () ∧
    s'.trace = s.trace ++ [Call.createInternetGateway Ctx.pipeline,
      Call.attachInternetGateway Ctx.todo igw vpcID] ∧
    s'.uuidCount = s.uuidCount := by
  unfold CreateInternetGateway at h
  cases hv : p.createInternetGatewayR with
  | error e => rw [hv] at h; simp at h
  | ok g0 =>
    rw [hv] at h
    simp only [] at h
    cases hm : p.attachInternetGatewayR g0 vpcID with
    | error e => rw [hm] at h; simp at h
    | ok un =>
      rw [hm] at h
      simp only [Prod.mk.injEq, Res.ok.injEq] at h
      obtain ⟨hveq, hseq⟩ := h
      subst hveq; subst hseq
      exact ⟨rfl, hm, by simp [issue], by simp [issue]⟩

/-- Inversion of a successful subnet loop: one fresh subnet identifier per
remaining pair, with the three per-pair calls appended in order. -/
theorem subnetLoop_ok {p : Provider} {vpcID routeTableID : String} :
    ∀ (pairs : List (String × String)) (acc : List String) (s : St)
      (sns : List String) (s' : St),
    subnetLoop p vpcID routeTableID pairs acc s = (Res.ok sns, s') →
    ∃ fresh : List String,
      sns = acc ++ fresh ∧
      fresh.length = pairs.length ∧
      (∀ pz ∈ pairs.zip fresh, p.createSubnetR vpcID pz.1.1 pz.1.2 = Except.ok pz.2) ∧
      s'.trace = s.trace ++ (pairs.zip fresh).flatMap (fun pz =>
        [Call.createSubnet Ctx.pipeline vpcID pz.1.1 pz.1.2,
         Call.modifySubnetAttribute Ctx.pipeline pz.2 true,
         Call.associateRouteTable Ctx.pipeline routeTableID pz.2]) ∧
      s'.uuidCount = s.uuidCount := by
  intro pairs
  induction pairs with
  | nil =>
    intro acc s sns s' h
    unfold subnetLoop at h
    simp only [Prod.mk.injEq, Res.ok.injEq] at h
    obtain ⟨h1, h2⟩ := h
    subst h1; subst h2
    exact ⟨[], by simp, rfl, by simp, by simp, rfl⟩
  | cons pr rest ih =>
    intro acc s sns s' h
    obtain ⟨cidr, az⟩ := pr
    unfold subnetLoop at h
    cases hc : p.createSubnetR vpcID cidr az with
    | error e => rw [hc] at h; simp at h
    | ok sn =>
      rw [hc] at h
      simp only [] at h
      cases hm : p.modifySubnetAttributeR sn true with
      | error e => rw [hm] at h; simp at h
      | ok un =>
        rw [hm] at h
        simp only [] at h
        cases ha : p.associateRouteTableR routeTableID sn with
        | error e => rw [ha] at h; simp at h
        | ok un2 =>
          rw [ha] at h
          simp only [] at h
          obtain ⟨fresh, hsns, hlen, hresp, htr, huu⟩ := ih _ _ _ _ h
          refine ⟨sn :: fresh, by simp [hsns], by simp [hlen], ?_, ?_, by simpa [issue] using huu⟩
          · intro pz hpz
            rw [List.zip_cons_cons] at hpz
            rcases List.mem_cons.mp hpz with hfst | hrest
            · subst hfst; exact hc
            · exact hresp pz hrest
          · rw [htr]
            simp [issue, List.zip_cons_cons]

/-- Inversion of a successful `CreateSubnets`: the shared route table and its
default route to the gateway come first, then the per-pair loop calls. -/
theorem createSubnets_ok {p : Provider} {vpcID internetGatewayID : String} {s : St}
    {sns : List String} {s' : St}
    (h : CreateSubnets p vpcID internetGatewayID s = (Res.ok sns, s')) :
    ∃ rt : String,
      p.createRouteTableR vpcID = Except.ok rt ∧
      p.createRouteR rt "0.0.0.0/0" internetGatewayID = Except.ok () ∧
      sns.length = AWSSubnetAvailabilityZones.length ∧
      (∀ pz ∈ AWSSubnetAvailabilityZones.zip sns,
        p.createSubnetR vpcID pz.1.1 pz.1.2 = Except.ok pz.2) ∧
      s'.trace = s.trace ++ [Call.createRouteTable Ctx.pipeline vpcID,
        Call.createRoute Ctx.pipeline rt "0.0.0.0/0" internetGatewayID] ++
        (AWSSubnetAvailabilityZones.zip sns).flatMap (fun pz =>
          [Call.createSubnet Ctx.pipeline vpcID pz.1.1 pz.1.2,
           Call.modifySubnetAttribute Ctx.pipeline pz.2 true,
           Call.associateRouteTable Ctx.pipeline rt pz.2]) ∧
      s'.uuidCount = s.uuidCount := by
  unfold CreateSubnets at h
  cases hrt : p.createRouteTableR vpcID with
  | error e => rw [hrt] at h; simp at h
  | ok rt =>
    rw [hrt] at h
    simp only [] at h
    cases hr : p.createRouteR rt "0.0.0.0/0" internetGatewayID with
    | error e => rw [hr] at h; simp at h
    | ok un =>
      rw [hr] at h
      simp only [] at h
      obtain ⟨fresh, hsns, hlen, hresp, htr, huu⟩ := subnetLoop_ok _ _ _ _ _ h
      simp only [List.nil_append] at hsns
      subst hsns
      refine ⟨rt, rfl, hr, hlen, hresp, ?_, by simpa [issue] using huu⟩
      rw [htr]
      simp [issue]

/-- Inversion of a successful `CreateSecurityGroup`: the group was created
under the prefixed uuid name, then exactly the fixed ingress rule list was
authorized, and one uuid was drawn. -/
theorem createSecurityGroup_ok {p : Provider} {g : Nat → String} {vpcID : String}
    {s : St} {gid : String} {s' : St}
    (h : CreateSecurityGroup p g vpcID s = (Res.ok gid, s')) :
    p.createSecurityGroupR (AWSSecurityGroupPrefixStr ++ g s.uuidCount)
      AWSSecurityGroupDescription vpcID = Except.ok gid ∧
    p.authorizeSecurityGroupIngressR gid ec2IngressPermissions = Except.ok () ∧
    s'.trace = s.trace ++
      [Call.createSecurityGroup Ctx.pipeline (AWSSecurityGroupPrefixStr ++ g s.uuidCount)
        AWSSecurityGroupDescription vpcID,
       Call.authorizeSecurityGroupIngress Ctx.pipeline gid ec2IngressPermissions] ∧
    s'.uuidCount = s.uuidCount + 1 := by
  unfold CreateSecurityGroup at h
  simp only [issue] at h
  cases hv : p.createSecurityGroupR (AWSSecurityGroupPrefixStr ++ g s.uuidCount)
      AWSSecurityGroupDescription vpcID with
  | error e => rw [hv] at h; simp at h
  | ok gid0 =>
    rw [hv] at h
    simp only [] at h
    cases hm : p.authorizeSecurityGroupIngressR gid0 ec2IngressPermissions with
    | error e => rw [hm] at h; simp at h
    | ok un =>
      rw [hm] at h
      simp only [Prod.mk.injEq, Res.ok.injEq] at h
      obtain ⟨hveq, hseq⟩ := h
      subst hveq; subst hseq
      exact ⟨rfl, hm, by simp [issue], by simp [issue]⟩

/-- Inversion of a successful `CreateLaunchTemplate`: the payload was
readable, and the registered template carries its base64 encoding, the AMI,
the instance type and the security group, under the prefixed uuid name. -/
theorem createLaunchTemplate_ok {p : Provider} {g : Nat → String}
    {userDataFile : Except String (List Nat)} {securityGroupID : String}
    {s : St} {lt : String} {s' : St}
    (h : CreateLaunchTemplate p g userDataFile securityGroupID s = (Res.ok lt, s')) :
    ∃ userDataBytes : List Nat,
      userDataFile = Except.ok userDataBytes ∧
      p.createLaunchTemplateR (AWSLaunchTemplatePrefixStr ++ g s.uuidCount)
        (base64Encode userDataBytes) AWSAmiID "t2.micro" [securityGroupID] = Except.ok lt ∧
      s'.trace = s.trace ++
        [Call.createLaunchTemplate Ctx.pipeline (AWSLaunchTemplatePrefixStr ++ g s.uuidCount)
          (base64Encode userDataBytes) AWSAmiID "t2.micro" [securityGroupID]] ∧
      s'.uuidCount = s.uuidCount + 1 := by
  unfold CreateLaunchTemplate at h
  cases userDataFile with
  | error e => simp at h
  | ok userDataBytes =>
    simp only [issue] at h
    cases hv : p.createLaunchTemplateR (AWSLaunchTemplatePrefixStr ++ g s.uuidCount)
        (base64Encode userDataBytes) AWSAmiID "t2.micro" [securityGroupID] with
    | error e => rw [hv] at h; simp at h
    | ok lt0 =>
      rw [hv] at h
      simp only [Prod.mk.injEq, Res.ok.injEq] at h
      obtain ⟨hveq, hseq⟩ := h
      subst hveq; subst hseq
      exact ⟨userDataBytes, rfl, hv, by simp [issue], by simp [issue]⟩

/-- Inversion of a successful `CreateTargetGroup`: the provider's response
list is non-empty and its head is the returned ARN; no uuid is drawn and the
target-group name is the fixed constant. -/
theorem createTargetGroup_ok {p : Provider} {vpcID : String} {s : St}
    {tgARN : String} {s' : St}
    (h : CreateTargetGroup p vpcID s = (Res.ok tgARN, s')) :
    ∃ tgRest : List String,
      p.createTargetGroupR "webservice-target-group" "HTTP" 8080 vpcID "instance" =
        Except.ok (tgARN :: tgRest) ∧
      s'.trace = s.trace ++ [Call.createTargetGroup Ctx.pipeline "webservice-target-group"
        "HTTP" 8080 vpcID "instance"] ∧
      s'.uuidCount = s.uuidCount := by
  unfold CreateTargetGroup at h
  cases hv : p.createTargetGroupR "webservice-target-group" "HTTP" 8080 vpcID "instance" with
  | error e => rw [hv] at h; simp at h
  | ok tgs =>
    rw [hv] at h
    simp only [] at h
    cases tgs with
    | nil => simp at h
    | cons t rest =>
      simp only [Prod.mk.injEq, Res.ok.injEq] at h
      obtain ⟨hveq, hseq⟩ := h
      subst hveq; subst hseq
      exact ⟨rest, rfl, by simp [issue], by simp [issue]⟩

/-- Inversion of a successful `CreateAutoscalingGroup`: the group was created
with the configured min/max bounds, the one target group, the template
reference at version `$Latest` and the comma-joined subnet list, then the
target-tracking policy was attached with the configured CPU threshold; two
uuids were drawn. -/
theorem createAutoscalingGroup_ok {p : Provider} {g : Nat → String}
    {launchTemplateID targetGroupARN : String} {subnetIDs : List String}
    {s : St} {s' : St}
    (h : CreateAutoscalingGroup p g launchTemplateID targetGroupARN subnetIDs s =
      (Res.ok (), s')) :
    p.createAutoScalingGroupR (AWSAutoscalingGroupPrefixStr ++ g s.uuidCount)
      launchTemplateID AWSLaunchTemplateVersion AWSMinEC2Count AWSMaxEC2Count
      [targetGroupARN] (String.intercalate "," subnetIDs) = Except.ok () ∧
    p.putScalingPolicyR (AWSAutoscalingGroupPrefixStr ++ g s.uuidCount)
      (AWSAutoscalingPolicyPrefixStr ++ g (s.uuidCount + 1)) AWSAutoscalingPolicyType
      AWSAutoScalingCPUThreshold "ASGAverageCPUUtilization" = Except.ok () ∧
    s'.trace = s.trace ++
      [Call.createAutoScalingGroup Ctx.pipeline (AWSAutoscalingGroupPrefixStr ++ g s.uuidCount)
        launchTemplateID AWSLaunchTemplateVersion AWSMinEC2Count AWSMaxEC2Count
        [targetGroupARN] (String.intercalate "," subnetIDs),
       Call.putScalingPolicy Ctx.pipeline (AWSAutoscalingGroupPrefixStr ++ g s.uuidCount)
        (AWSAutoscalingPolicyPrefixStr ++ g (s.uuidCount + 1)) AWSAutoscalingPolicyType
        AWSAutoScalingCPUThreshold "ASGAverageCPUUtilization"] ∧
    s'.uuidCount = s.uuidCount + 2 := by
  unfold CreateAutoscalingGroup at h
  simp only [issue] at h
  cases hv : p.createAutoScalingGroupR (AWSAutoscalingGroupPrefixStr ++ g s.uuidCount)
      launchTemplateID AWSLaunchTemplateVersion AWSMinEC2Count AWSMaxEC2Count
      [targetGroupARN] (String.intercalate "," subnetIDs) with
  | error e => rw [hv] at h; simp at h
  | ok un =>
    rw [hv] at h
    simp only [] at h
    cases hm : p.putScalingPolicyR (AWSAutoscalingGroupPrefixStr ++ g s.uuidCount)
        (AWSAutoscalingPolicyPrefixStr ++ g (s.uuidCount + 1)) AWSAutoscalingPolicyType
        AWSAutoScalingCPUThreshold "ASGAverageCPUUtilization" with
    | error e => rw [hm] at h; simp at h
    | ok un2 =>
      rw [hm] at h
      simp only [Prod.mk.injEq, Res.ok.injEq] at h
      obtain ⟨hveq, hseq⟩ := h
      subst hseq
      exact ⟨rfl, rfl, by simp [issue], by simp [issue]⟩

/-- Inversion of a successful `CreateLoadBalancer`: the provider's response
list is non-empty with the returned ARN as head; the load-balancer name is
the fixed constant and no uuid is drawn. -/
theorem createLoadBalancer_ok {p : Provider} {subnetIDs : List String}
    {securityGroupID : String} {s : St} {lbARN : String} {s' : St}
    (h : CreateLoadBalancer p subnetIDs securityGroupID s = (Res.ok lbARN, s')) :
    ∃ lbRest : List String,
      p.createLoadBalancerR "webservice-load-balancer" "internet-facing" subnetIDs
        [securityGroupID] "ipv4" "application" = Except.ok (lbARN :: lbRest) ∧
      s'.trace = s.trace ++ [Call.createLoadBalancer Ctx.pipeline "webservice-load-balancer"
        "internet-facing" subnetIDs [securityGroupID] "ipv4" "application"] ∧
      s'.uuidCount = s.uuidCount := by
  unfold CreateLoadBalancer at h
  cases hv : p.createLoadBalancerR "webservice-load-balancer" "internet-facing" subnetIDs
      [securityGroupID] "ipv4" "application" with
  | error e => rw [hv] at h; simp at h
  | ok lbs =>
    rw [hv] at h
    simp only [] at h
    cases lbs with
    | nil => simp at h
    | cons l rest =>
      simp only [Prod.mk.injEq, Res.ok.injEq] at h
      obtain ⟨hveq, hseq⟩ := h
      subst hveq; subst hseq
      exact ⟨rest, rfl, by simp [issue], by simp [issue]⟩

/-- Inversion of a successful `CreateListener`: the one listener call was
issued, on port 80 with a single forward action to the one target group. -/
theorem createListener_ok {p : Provider} {loadBalancerARN targetGroupARN : String}
    {s : St} {s' : St}
    (h : CreateListener p loadBalancerARN targetGroupARN s = (Res.ok (), s')) :
    p.createListenerR loadBalancerARN "HTTP" 80
      [{ type := "forward",
         forwardConfig := { targetGroups := [{ targetGroupArn := targetGroupARN }] } }] =
      Except.ok () ∧
    s'.trace = s.trace ++ [Call.createListener Ctx.pipeline loadBalancerARN "HTTP" 80
      [{ type := "forward",
         forwardConfig := { targetGroups := [{ targetGroupArn := targetGroupARN }] } }]] ∧
    s'.uuidCount = s.uuidCount := by
  unfold CreateListener at h
  simp only [issue] at h
  cases hv : p.createListenerR loadBalancerARN "HTTP" 80
      [{ type := "forward",
         forwardConfig := { targetGroups := [{ targetGroupArn := targetGroupARN }] } }] with
  | error e => rw [hv] at h; simp at h
  | ok un =>
    rw [hv] at h
    simp only [Prod.mk.injEq, Res.ok.injEq] at h
    obtain ⟨hveq, hseq⟩ := h
    subst hseq
    exact ⟨rfl, by simp [issue], by simp [issue]⟩

/-- C1 (amended): for every successful run, the pipeline creates resources
strictly in the order network, gateway, subnets, security group, launch
template, TARGET GROUP, compute (autoscaling group and scaling policy), load
balancer, listener — the target group precedes the compute step, since the
autoscaling group consumes the target-group ARN — with zero steps attempted
out of order, and each step's request built only from identifiers produced
by earlier steps (`PipelineRunSpec` spells out the full trace and wiring). -/
theorem c1_pipeline_order_amended (p : Provider) (g : Nat → String)
    (u : Except String (List Nat)) (sF : St)
    (h : main p g u = (Res.ok (), sF)) : PipelineRunSpec p g u sF := by
  unfold main at h
  obtain ⟨vpc, s1, h1, h⟩ := stepBind_eq_ok h
  obtain ⟨igw, s2, h2, h⟩ := stepBind_eq_ok h
  obtain ⟨sns, s3, h3, h⟩ := stepBind_eq_ok h
  obtain ⟨sg, s4, h4, h⟩ := stepBind_eq_ok h
  obtain ⟨lt, s5, h5, h⟩ := stepBind_eq_ok h
  obtain ⟨tg, s6, h6, h⟩ := stepBind_eq_ok h
  obtain ⟨unit1, s7, h7, h⟩ := stepBind_eq_ok h
  obtain ⟨lb, s8, h8, h⟩ := stepBind_eq_ok h
  obtain ⟨hlis1, ht9, hu9⟩ := createListener_ok h
  obtain ⟨hv1, hv2, ht1, hu1⟩ := createVPC_ok h1
  obtain ⟨hg1, hg2, ht2, hu2⟩ := createIGW_ok h2
  obtain ⟨rt, hrt, hroute, hlen, hresp, ht3, hu3⟩ := createSubnets_ok h3
  obtain ⟨hsg1, hsg2, ht4, hu4⟩ := createSecurityGroup_ok h4
  obtain ⟨bytes, hub, hlt1, ht5, hu5⟩ := createLaunchTemplate_ok h5
  obtain ⟨tgRest, htg1, ht6, hu6⟩ := createTargetGroup_ok h6
  obtain ⟨hasg1, hasg2, ht7, hu7⟩ := createAutoscalingGroup_ok h7
  obtain ⟨lbRest, hlb1, ht8, hu8⟩ := createLoadBalancer_ok h8
  rw [show AWSSubnetAvailabilityZones.length = 2 from rfl] at hlen
  obtain ⟨sn1, sn2, rfl⟩ := List.length_eq_two.mp hlen
  have hz : AWSSubnetAvailabilityZones.zip [sn1, sn2] =
      [(("10.0.1.0/24", "us-east-1a"), sn1), (("10.0.2.0/24", "us-east-1b"), sn2)] := rfl
  rw [hz] at hresp ht3
  have hsn1 := hresp _ (List.mem_cons_self _ _)
  have hsn2 := hresp _ (List.mem_cons_of_mem _ (List.mem_cons_self _ _))
  have e1 : s1.uuidCount = 0 := by simpa using hu1
  have e3 : s3.uuidCount = 0 := by rw [hu3, hu2, e1]
  have e4 : s4.uuidCount = 1 := by rw [hu4, e3]
  have e5 : s5.uuidCount = 2 := by rw [hu5, e4]
  have e6 : s6.uuidCount = 2 := by rw [hu6, e5]
  rw [e3] at hsg1 ht4
  rw [e4] at hlt1 ht5
  rw [e6] at hasg1 hasg2 ht7
  have htrace : sF.trace =
      [Call.createVpc Ctx.pipeline "10.0.0.0/16",
       Call.modifyVpcAttribute Ctx.pipeline vpc true,
       Call.createInternetGateway Ctx.pipeline,
       Call.attachInternetGateway Ctx.todo igw vpc,
       Call.createRouteTable Ctx.pipeline vpc,
       Call.createRoute Ctx.pipeline rt "0.0.0.0/0" igw,
       Call.createSubnet Ctx.pipeline vpc "10.0.1.0/24" "us-east-1a",
       Call.modifySubnetAttribute Ctx.pipeline sn1 true,
       Call.associateRouteTable Ctx.pipeline rt sn1,
       Call.createSubnet Ctx.pipeline vpc "10.0.2.0/24" "us-east-1b",
       Call.modifySubnetAttribute Ctx.pipeline sn2 true,
       Call.associateRouteTable Ctx.pipeline rt sn2,
       Call.createSecurityGroup Ctx.pipeline (AWSSecurityGroupPrefixStr ++ g 0)
         AWSSecurityGroupDescription vpc,
       Call.authorizeSecurityGroupIngress Ctx.pipeline sg ec2IngressPermissions,
       Call.createLaunchTemplate Ctx.pipeline (AWSLaunchTemplatePrefixStr ++ g 1)
         (base64Encode bytes) AWSAmiID "t2.micro" [sg],
       Call.createTargetGroup Ctx.pipeline "webservice-target-group" "HTTP" 8080
         vpc "instance",
       Call.createAutoScalingGroup Ctx.pipeline (AWSAutoscalingGroupPrefixStr ++ g 2) lt
         AWSLaunchTemplateVersion AWSMinEC2Count AWSMaxEC2Count [tg]
         (String.intercalate "," [sn1, sn2]),
       Call.putScalingPolicy Ctx.pipeline (AWSAutoscalingGroupPrefixStr ++ g 2)
         (AWSAutoscalingPolicyPrefixStr ++ g 3) AWSAutoscalingPolicyType
         AWSAutoScalingCPUThreshold "ASGAverageCPUUtilization",
       Call.createLoadBalancer Ctx.pipeline "webservice-load-balancer" "internet-facing"
         [sn1, sn2] [sg] "ipv4" "application",
       Call.createListener Ctx.pipeline lb "HTTP" 80
         [{ type := "forward",
            forwardConfig := { targetGroups := [{ targetGroupArn := tg }] } }]] := by
    rw [ht9, ht8, ht7, ht6, ht5, ht4, ht3, ht2, ht1]
    simp
  refine ⟨vpc, igw, rt, sn1, sn2, sg, lt, tg, lb, tgRest, lbRest, bytes,
    hub, hv1, hv2, hg1, hg2, hrt, hroute, hsn1, hsn2, hsg1, hsg2, hlt1, htg1,
    hasg1, hasg2, hlb1, hlis1, htrace, ?_⟩
  have hmap : (sF.trace.map codeOrderIdx).Pairwise (fun a b => a ≤ b) := by
    rw [htrace]
    simp only [List.map_cons, List.map_nil, codeOrderIdx]
    decide
  exact List.pairwise_map.mp hmap

/-- C1 witness: the amended order theorem instantiated on the concrete
successful `happyProvider` run. -/
theorem c1_pipeline_order_amended_witness :
    main happyProvider guu (Except.ok []) = (Res.ok (), happyFinalSt) ∧
    PipelineRunSpec happyProvider guu (Except.ok []) happyFinalSt :=
  ⟨rfl, c1_pipeline_order_amended happyProvider guu (Except.ok []) happyFinalSt rfl⟩

/-- C1 counterexample: the claim's declared component order puts compute
before the target group; the concrete successful run violates that order
(the target-group call precedes the autoscaling-group call), so the claim
as stated is false of the code. -/
theorem c1_declared_order_counterexample :
    ¬ List.Pairwise (fun a b => claimOrderIdx a ≤ claimOrderIdx b)
      (main happyProvider guu (Except.ok [])).2.trace := by
  decide

/-- C2: the claim says every provider call receives the single startup
deadline/cancellation context.  The code contradicts this: in the concrete
successful run, exactly one call — the gateway attach — is issued under
`context.TODO()` instead of the pipeline context (source:
`AttachInternetGateway(context.TODO(), ...)` inside `CreateInternetGateway`),
so cancelling the startup context cannot abort that call. -/
theorem c2_attach_gateway_context_todo :
    (main happyProvider guu (Except.ok [])).2.trace.filter
      (fun c => !(ctxOf c == Ctx.pipeline)) =
      [Call.attachInternetGateway Ctx.todo "igw-1" "vpc-1"] ∧
    ctxOf (Call.attachInternetGateway Ctx.todo "igw-1" "vpc-1") ≠ Ctx.pipeline := by
  exact ⟨rfl, by decide⟩

/-- C3: when the create-load-balancer call fails (after every prior step
succeeded, as under `lbFailProvider`), the run ends with the fatal error
attributed to that step, the trace still holds every call of the prior steps
(nothing is retracted — the pipeline has no delete operation at all), and no
listener-creation or target-registration call is ever attempted. -/
theorem c3_load_balancer_failure_aborts (e : String) (g : Nat → String)
    (bytes : List Nat) :
    (main (lbFailProvider e) g (Except.ok bytes)).1 =
      Res.fatal ("error creating load balancer: " ++ e) ∧
    (main (lbFailProvider e) g (Except.ok bytes)).2.trace =
      [Call.createVpc Ctx.pipeline "10.0.0.0/16",
       Call.modifyVpcAttribute Ctx.pipeline "vpc-1" true,
       Call.createInternetGateway Ctx.pipeline,
       Call.attachInternetGateway Ctx.todo "igw-1" "vpc-1",
       Call.createRouteTable Ctx.pipeline "vpc-1",
       Call.createRoute Ctx.pipeline "rtb-1" "0.0.0.0/0" "igw-1",
       Call.createSubnet Ctx.pipeline "vpc-1" "10.0.1.0/24" "us-east-1a",
       Call.modifySubnetAttribute Ctx.pipeline "subnet-10.0.1.0/24" true,
       Call.associateRouteTable Ctx.pipeline "rtb-1" "subnet-10.0.1.0/24",
       Call.createSubnet Ctx.pipeline "vpc-1" "10.0.2.0/24" "us-east-1b",
       Call.modifySubnetAttribute Ctx.pipeline "subnet-10.0.2.0/24" true,
       Call.associateRouteTable Ctx.pipeline "rtb-1" "subnet-10.0.2.0/24",
       Call.createSecurityGroup Ctx.pipeline (AWSSecurityGroupPrefixStr ++ g 0)
         AWSSecurityGroupDescription "vpc-1",
       Call.authorizeSecurityGroupIngress Ctx.pipeline "sg-1" ec2IngressPermissions,
       Call.createLaunchTemplate Ctx.pipeline (AWSLaunchTemplatePrefixStr ++ g 1)
         (base64Encode bytes) AWSAmiID "t2.micro" ["sg-1"],
       Call.createTargetGroup Ctx.pipeline "webservice-target-group" "HTTP" 8080
         "vpc-1" "instance",
       Call.createAutoScalingGroup Ctx.pipeline (AWSAutoscalingGroupPrefixStr ++ g 2)
         "lt-1" AWSLaunchTemplateVersion AWSMinEC2Count AWSMaxEC2Count ["tg-arn-1"]
         "subnet-10.0.1.0/24,subnet-10.0.2.0/24",
       Call.putScalingPolicy Ctx.pipeline (AWSAutoscalingGroupPrefixStr ++ g 2)
         (AWSAutoscalingPolicyPrefixStr ++ g 3) AWSAutoscalingPolicyType
         AWSAutoScalingCPUThreshold "ASGAverageCPUUtilization",
       Call.createLoadBalancer Ctx.pipeline "webservice-load-balancer" "internet-facing"
         ["subnet-10.0.1.0/24", "subnet-10.0.2.0/24"] ["sg-1"] "ipv4" "application"] ∧
    (∀ c ∈ (main (lbFailProvider e) g (Except.ok bytes)).2.trace,
      isCreateListenerC c = false ∧ isRegisterTargetsC c = false) := by
  refine ⟨rfl, rfl, ?_⟩
  have hall : (main (lbFailProvider e) g (Except.ok bytes)).2.trace.all
      (fun c => !(isCreateListenerC c) && !(isRegisterTargetsC c)) = true := rfl
  intro c hc
  have hcb := List.all_eq_true.mp hall c hc
  simp only [Bool.and_eq_true, Bool.not_eq_true'] at hcb
  exact hcb

/-- C8: an unreadable bootstrap payload (a local read error) makes
`CreateLaunchTemplate` fail immediately with the read error, leaving the
state — in particular the trace of issued provider calls — unchanged: no
launch-template registration request is ever issued. -/
theorem c8_unreadable_payload_no_provider_call (p : Provider) (g : Nat → String)
    (e : String) (securityGroupID : String) (s : St) :
    CreateLaunchTemplate p g (Except.error e) securityGroupID s =
      (Res.fatal ("error reading user_data.sh file: " ++ e), s) ∧
    (CreateLaunchTemplate p g (Except.error e) securityGroupID s).2.trace = s.trace := by
  exact ⟨rfl, rfl⟩

/-- C5: on every successful run of the security-group provisioner, the rule
list passed to the single authorize-ingress call is exactly the configured
list `ec2IngressPermissions` (TCP 8080, 80 and 443 from 0.0.0.0/0 — same
protocol, port bounds and source CIDR per rule, no extra and no missing
rules), and the group is created under the fixed prefix plus the drawn
random suffix. -/
theorem c5_security_group_rules_exact {p : Provider} {g : Nat → String}
    {vpcID : String} {s : St} {gid : String} {s' : St}
    (h : CreateSecurityGroup p g vpcID s = (Res.ok gid, s')) :
    p.authorizeSecurityGroupIngressR gid ec2IngressPermissions = Except.ok () ∧
    s'.trace = s.trace ++
      [Call.createSecurityGroup Ctx.pipeline (AWSSecurityGroupPrefixStr ++ g s.uuidCount)
        AWSSecurityGroupDescription vpcID,
       Call.authorizeSecurityGroupIngress Ctx.pipeline gid ec2IngressPermissions] ∧
    (∀ c ∈ s'.trace.drop s.trace.length, ∀ gid2 perms,
      c = Call.authorizeSecurityGroupIngress Ctx.pipeline gid2 perms →
        perms = ec2IngressPermissions) := by
  obtain ⟨hsg1, hsg2, htr, huu⟩ := createSecurityGroup_ok h
  refine ⟨hsg2, htr, ?_⟩
  intro c hc gid2 perms hceq
  rw [htr, List.drop_left] at hc
  rcases List.mem_cons.mp hc with rfl | hc2
  · exact absurd hceq (by simp)
  · rcases List.mem_singleton.mp hc2 with rfl
    cases hceq
    rfl

/-- C5 witness: the security-group theorem instantiated on a concrete
successful call. -/
theorem c5_security_group_rules_exact_witness :
    CreateSecurityGroup happyProvider guu "vpc-1" { trace := [], uuidCount := 0 } =
      (Res.ok "sg-1",
        (CreateSecurityGroup happyProvider guu "vpc-1" { trace := [], uuidCount := 0 }).2) ∧
    (happyProvider.authorizeSecurityGroupIngressR "sg-1" ec2IngressPermissions =
        Except.ok () ∧
      (CreateSecurityGroup happyProvider guu "vpc-1" { trace := [], uuidCount := 0 }).2.trace =
        [Call.createSecurityGroup Ctx.pipeline (AWSSecurityGroupPrefixStr ++ guu 0)
          AWSSecurityGroupDescription "vpc-1",
         Call.authorizeSecurityGroupIngress Ctx.pipeline "sg-1" ec2IngressPermissions] ∧
      (∀ c ∈ (CreateSecurityGroup happyProvider guu "vpc-1"
          { trace := [], uuidCount := 0 }).2.trace.drop 0, ∀ gid2 perms,
        c = Call.authorizeSecurityGroupIngress Ctx.pipeline gid2 perms →
          perms = ec2IngressPermissions)) :=
  ⟨rfl, c5_security_group_rules_exact (show CreateSecurityGroup happyProvider guu "vpc-1"
    { trace := [], uuidCount := 0 } = (Res.ok "sg-1", (CreateSecurityGroup happyProvider guu
    "vpc-1" { trace := [], uuidCount := 0 }).2) from rfl)⟩

/-- C7: on every successful run of the autoscaling compute step, the created
group carries exactly the configured minimum and maximum fleet bounds, is
attached to exactly the one provisioned target group, references the full
provisioned subnet list (comma-joined), and the attached target-tracking
policy's target value is exactly the configured CPU threshold. -/
theorem c7_autoscaling_group_config {p : Provider} {g : Nat → String}
    {launchTemplateID targetGroupARN : String} {subnetIDs : List String}
    {s : St} {s' : St}
    (h : CreateAutoscalingGroup p g launchTemplateID targetGroupARN subnetIDs s =
      (Res.ok (), s')) :
    p.createAutoScalingGroupR (AWSAutoscalingGroupPrefixStr ++ g s.uuidCount)
      launchTemplateID AWSLaunchTemplateVersion AWSMinEC2Count AWSMaxEC2Count
      [targetGroupARN] (String.intercalate "," subnetIDs) = Except.ok () ∧
    s'.trace = s.trace ++
      [Call.createAutoScalingGroup Ctx.pipeline (AWSAutoscalingGroupPrefixStr ++ g s.uuidCount)
        launchTemplateID AWSLaunchTemplateVersion AWSMinEC2Count AWSMaxEC2Count
        [targetGroupARN] (String.intercalate "," subnetIDs),
       Call.putScalingPolicy Ctx.pipeline (AWSAutoscalingGroupPrefixStr ++ g s.uuidCount)
        (AWSAutoscalingPolicyPrefixStr ++ g (s.uuidCount + 1)) AWSAutoscalingPolicyType
        AWSAutoScalingCPUThreshold "ASGAverageCPUUtilization"] ∧
    AWSMinEC2Count = 2 ∧ AWSMaxEC2Count = 5 ∧ AWSAutoScalingCPUThreshold = 30 := by
  obtain ⟨hasg1, hasg2, htr, huu⟩ := createAutoscalingGroup_ok h
  exact ⟨hasg1, htr, rfl, rfl, rfl⟩

/-- C7 witness: the autoscaling theorem instantiated on a concrete
successful call. -/
theorem c7_autoscaling_group_config_witness :
    CreateAutoscalingGroup happyProvider guu "lt-1" "tg-arn-1" ["sn-a", "sn-b"]
      { trace := [], uuidCount := 0 } =
      (Res.ok (), (CreateAutoscalingGroup happyProvider guu "lt-1" "tg-arn-1"
        ["sn-a", "sn-b"] { trace := [], uuidCount := 0 }).2) ∧
    (happyProvider.createAutoScalingGroupR (AWSAutoscalingGroupPrefixStr ++ guu 0)
      "lt-1" AWSLaunchTemplateVersion AWSMinEC2Count AWSMaxEC2Count
      ["tg-arn-1"] (String.intercalate "," ["sn-a", "sn-b"]) = Except.ok () ∧
    (CreateAutoscalingGroup happyProvider guu "lt-1" "tg-arn-1" ["sn-a", "sn-b"]
        { trace := [], uuidCount := 0 }).2.trace =
      [Call.createAutoScalingGroup Ctx.pipeline (AWSAutoscalingGroupPrefixStr ++ guu 0)
        "lt-1" AWSLaunchTemplateVersion AWSMinEC2Count AWSMaxEC2Count
        ["tg-arn-1"] (String.intercalate "," ["sn-a", "sn-b"]),
       Call.putScalingPolicy Ctx.pipeline (AWSAutoscalingGroupPrefixStr ++ guu 0)
        (AWSAutoscalingPolicyPrefixStr ++ guu 1) AWSAutoscalingPolicyType
        AWSAutoScalingCPUThreshold "ASGAverageCPUUtilization"] ∧
    AWSMinEC2Count = 2 ∧ AWSMaxEC2Count = 5 ∧ AWSAutoScalingCPUThreshold = 30) :=
  ⟨rfl, c7_autoscaling_group_config (show CreateAutoscalingGroup happyProvider guu "lt-1"
    "tg-arn-1" ["sn-a", "sn-b"] { trace := [], uuidCount := 0 } =
    (Res.ok (), (CreateAutoscalingGroup happyProvider guu "lt-1" "tg-arn-1" ["sn-a", "sn-b"]
    { trace := [], uuidCount := 0 }).2) from rfl)⟩

/-- C10: `CreateLoadBalancer` and `CreateTargetGroup` index element 0 of the
provider's response list without an emptiness check.  Under the precondition
that the successful response is non-empty (head element exists), the
functions return exactly that first element and never crash; the `crash`
constructor in `Res` is exactly the uncovered empty-response case. -/
theorem c10_first_element_on_nonempty (p : Provider) (subnetIDs : List String)
    (securityGroupID vpcID : String) (s : St) (l t : String) (lrest trest : List String)
    (hlb : p.createLoadBalancerR "webservice-load-balancer" "internet-facing" subnetIDs
      [securityGroupID] "ipv4" "application" = Except.ok (l :: lrest))
    (htg : p.createTargetGroupR "webservice-target-group" "HTTP" 8080 vpcID "instance" =
      Except.ok (t :: trest)) :
    (CreateLoadBalancer p subnetIDs securityGroupID s).1 = Res.ok l ∧
    (CreateLoadBalancer p subnetIDs securityGroupID s).1 ≠ Res.crash ∧
    (CreateTargetGroup p vpcID s).1 = Res.ok t ∧
    (CreateTargetGroup p vpcID s).1 ≠ Res.crash := by
  unfold CreateLoadBalancer CreateTargetGroup
  rw [hlb, htg]
  exact ⟨rfl, by simp, rfl, by simp⟩

/-- C10 witness: the indexing theorem instantiated on `happyProvider`, whose
responses are the singleton lists `["lb-arn-1"]` and `["tg-arn-1"]`. -/
theorem c10_first_element_on_nonempty_witness :
    (happyProvider.createLoadBalancerR "webservice-load-balancer" "internet-facing"
      ["sn-a"] ["sg-1"] "ipv4" "application" = Except.ok ("lb-arn-1" :: [])) ∧
    (happyProvider.createTargetGroupR "webservice-target-group" "HTTP" 8080 "vpc-1"
      "instance" = Except.ok ("tg-arn-1" :: [])) ∧
    ((CreateLoadBalancer happyProvider ["sn-a"] "sg-1"
        { trace := [], uuidCount := 0 }).1 = Res.ok "lb-arn-1" ∧
     (CreateLoadBalancer happyProvider ["sn-a"] "sg-1"
        { trace := [], uuidCount := 0 }).1 ≠ Res.crash ∧
     (CreateTargetGroup happyProvider "vpc-1" { trace := [], uuidCount := 0 }).1 =
        Res.ok "tg-arn-1" ∧
     (CreateTargetGroup happyProvider "vpc-1" { trace := [], uuidCount := 0 }).1 ≠
        Res.crash) :=
  ⟨rfl, rfl, c10_first_element_on_nonempty happyProvider ["sn-a"] "sg-1" "vpc-1"
    { trace := [], uuidCount := 0 } "lb-arn-1" "tg-arn-1" [] [] rfl rfl⟩

/-- C6: on every successful run of the subnet provisioner, exactly one
subnet is created per configured (CIDR, zone) pair, every created subnet is
associated with the one shared route table, and that route table receives
exactly one default route (0.0.0.0/0) targeting the provisioned gateway. -/
theorem c6_subnets_per_pair (p : Provider) (vpcID internetGatewayID : String)
    (s : St) (sns : List String) (s' : St)
    (h : CreateSubnets p vpcID internetGatewayID s = (Res.ok sns, s')) :
    ∃ rt sn1 sn2,
      sns = [sn1, sn2] ∧
      p.createRouteTableR vpcID = Except.ok rt ∧
      s'.trace = s.trace ++
        [Call.createRouteTable Ctx.pipeline vpcID,
         Call.createRoute Ctx.pipeline rt "0.0.0.0/0" internetGatewayID,
         Call.createSubnet Ctx.pipeline vpcID "10.0.1.0/24" "us-east-1a",
         Call.modifySubnetAttribute Ctx.pipeline sn1 true,
         Call.associateRouteTable Ctx.pipeline rt sn1,
         Call.createSubnet Ctx.pipeline vpcID "10.0.2.0/24" "us-east-1b",
         Call.modifySubnetAttribute Ctx.pipeline sn2 true,
         Call.associateRouteTable Ctx.pipeline rt sn2] ∧
      (s'.trace.drop s.trace.length).filter isCreateRouteTableC =
        [Call.createRouteTable Ctx.pipeline vpcID] ∧
      (s'.trace.drop s.trace.length).filter isCreateRouteC =
        [Call.createRoute Ctx.pipeline rt "0.0.0.0/0" internetGatewayID] ∧
      (s'.trace.drop s.trace.length).filter isCreateSubnetC =
        AWSSubnetAvailabilityZones.map
          (fun pr => Call.createSubnet Ctx.pipeline vpcID pr.1 pr.2) ∧
      (s'.trace.drop s.trace.length).filter isAssociateRouteTableC =
        sns.map (fun sn => Call.associateRouteTable Ctx.pipeline rt sn) := by
  obtain ⟨rt, hrt, hroute, hlen, hresp, htr, huu⟩ := createSubnets_ok h
  rw [show AWSSubnetAvailabilityZones.length = 2 from rfl] at hlen
  obtain ⟨sn1, sn2, rfl⟩ := List.length_eq_two.mp hlen
  have hz : AWSSubnetAvailabilityZones.zip [sn1, sn2] =
      [(("10.0.1.0/24", "us-east-1a"), sn1), (("10.0.2.0/24", "us-east-1b"), sn2)] := rfl
  rw [hz] at htr
  have htr2 : s'.trace = s.trace ++
      [Call.createRouteTable Ctx.pipeline vpcID,
       Call.createRoute Ctx.pipeline rt "0.0.0.0/0" internetGatewayID,
       Call.createSubnet Ctx.pipeline vpcID "10.0.1.0/24" "us-east-1a",
       Call.modifySubnetAttribute Ctx.pipeline sn1 true,
       Call.associateRouteTable Ctx.pipeline rt sn1,
       Call.createSubnet Ctx.pipeline vpcID "10.0.2.0/24" "us-east-1b",
       Call.modifySubnetAttribute Ctx.pipeline sn2 true,
       Call.associateRouteTable Ctx.pipeline rt sn2] := by
    rw [htr]; simp
  have hdrop : s'.trace.drop s.trace.length =
      [Call.createRouteTable Ctx.pipeline vpcID,
       Call.createRoute Ctx.pipeline rt "0.0.0.0/0" internetGatewayID,
       Call.createSubnet Ctx.pipeline vpcID "10.0.1.0/24" "us-east-1a",
       Call.modifySubnetAttribute Ctx.pipeline sn1 true,
       Call.associateRouteTable Ctx.pipeline rt sn1,
       Call.createSubnet Ctx.pipeline vpcID "10.0.2.0/24" "us-east-1b",
       Call.modifySubnetAttribute Ctx.pipeline sn2 true,
       Call.associateRouteTable Ctx.pipeline rt sn2] := by
    rw [htr2]; exact List.drop_left _ _
  refine ⟨rt, sn1, sn2, rfl, hrt, htr2, ?_, ?_, ?_, ?_⟩ <;> rw [hdrop] <;> rfl

/-- C6 witness: the subnet theorem instantiated on a concrete successful
call. -/
theorem c6_subnets_per_pair_witness :
    CreateSubnets happyProvider "vpc-1" "igw-1" { trace := [], uuidCount := 0 } =
      (Res.ok ["subnet-10.0.1.0/24", "subnet-10.0.2.0/24"],
        (CreateSubnets happyProvider "vpc-1" "igw-1" { trace := [], uuidCount := 0 }).2) ∧
    (∃ rt sn1 sn2,
      (["subnet-10.0.1.0/24", "subnet-10.0.2.0/24"] : List String) = [sn1, sn2] ∧
      happyProvider.createRouteTableR "vpc-1" = Except.ok rt ∧
      (CreateSubnets happyProvider "vpc-1" "igw-1"
          { trace := [], uuidCount := 0 }).2.trace =
        [] ++
        [Call.createRouteTable Ctx.pipeline "vpc-1",
         Call.createRoute Ctx.pipeline rt "0.0.0.0/0" "igw-1",
         Call.createSubnet Ctx.pipeline "vpc-1" "10.0.1.0/24" "us-east-1a",
         Call.modifySubnetAttribute Ctx.pipeline sn1 true,
         Call.associateRouteTable Ctx.pipeline rt sn1,
         Call.createSubnet Ctx.pipeline "vpc-1" "10.0.2.0/24" "us-east-1b",
         Call.modifySubnetAttribute Ctx.pipeline sn2 true,
         Call.associateRouteTable Ctx.pipeline rt sn2] ∧
      ((CreateSubnets happyProvider "vpc-1" "igw-1"
          { trace := [], uuidCount := 0 }).2.trace.drop 0).filter isCreateRouteTableC =
        [Call.createRouteTable Ctx.pipeline "vpc-1"] ∧
      ((CreateSubnets happyProvider "vpc-1" "igw-1"
          { trace := [], uuidCount := 0 }).2.trace.drop 0).filter isCreateRouteC =
        [Call.createRoute Ctx.pipeline rt "0.0.0.0/0" "igw-1"] ∧
      ((CreateSubnets happyProvider "vpc-1" "igw-1"
          { trace := [], uuidCount := 0 }).2.trace.drop 0).filter isCreateSubnetC =
        AWSSubnetAvailabilityZones.map
          (fun pr => Call.createSubnet Ctx.pipeline "vpc-1" pr.1 pr.2) ∧
      ((CreateSubnets happyProvider "vpc-1" "igw-1"
          { trace := [], uuidCount := 0 }).2.trace.drop 0).filter isAssociateRouteTableC =
        (["subnet-10.0.1.0/24", "subnet-10.0.2.0/24"] : List String).map
          (fun sn => Call.associateRouteTable Ctx.pipeline rt sn)) :=
  ⟨rfl, c6_subnets_per_pair happyProvider "vpc-1" "igw-1" { trace := [], uuidCount := 0 }
    ["subnet-10.0.1.0/24", "subnet-10.0.2.0/24"]
    (CreateSubnets happyProvider "vpc-1" "igw-1" { trace := [], uuidCount := 0 }).2
    (show CreateSubnets happyProvider "vpc-1" "igw-1" { trace := [], uuidCount := 0 } =
      (Res.ok ["subnet-10.0.1.0/24", "subnet-10.0.2.0/24"],
        (CreateSubnets happyProvider "vpc-1" "igw-1"
          { trace := [], uuidCount := 0 }).2) from rfl)⟩

/-- C9 counterexample: two full runs that differ only in their random-suffix
supplies still carry IDENTICAL, suffix-free names in their create-load-
balancer and create-target-group calls (`webservice-load-balancer`,
`webservice-target-group`), even though the runs' traces otherwise differ —
so it is false that the two runs' resource names differ by randomized
suffixes for EVERY created named resource. -/
theorem c9_fixed_names_counterexample :
    (main happyProvider (fun _ => "run1") (Except.ok [])).2.trace.filter
        isCreateLoadBalancerC =
      [Call.createLoadBalancer Ctx.pipeline "webservice-load-balancer" "internet-facing"
        ["subnet-10.0.1.0/24", "subnet-10.0.2.0/24"] ["sg-1"] "ipv4" "application"] ∧
    (main happyProvider (fun _ => "run2") (Except.ok [])).2.trace.filter
        isCreateLoadBalancerC =
      [Call.createLoadBalancer Ctx.pipeline "webservice-load-balancer" "internet-facing"
        ["subnet-10.0.1.0/24", "subnet-10.0.2.0/24"] ["sg-1"] "ipv4" "application"] ∧
    (main happyProvider (fun _ => "run1") (Except.ok [])).2.trace.filter
        isCreateTargetGroupC =
      [Call.createTargetGroup Ctx.pipeline "webservice-target-group" "HTTP" 8080
        "vpc-1" "instance"] ∧
    (main happyProvider (fun _ => "run2") (Except.ok [])).2.trace.filter
        isCreateTargetGroupC =
      [Call.createTargetGroup Ctx.pipeline "webservice-target-group" "HTTP" 8080
        "vpc-1" "instance"] ∧
    (main happyProvider (fun _ => "run1") (Except.ok [])).2.trace ≠
      (main happyProvider (fun _ => "run2") (Except.ok [])).2.trace := by
  refine ⟨rfl, rfl, rfl, rfl, ?_⟩
  decide

/-- C9 (amended): a run never detects or reuses prior state — for ANY
suffix supply `g` it issues the same fixed create-only call sequence — and
among the created named resources only the security group, launch template,
autoscaling group and scaling policy carry a randomized suffix (prefix ++
fresh uuid); the load-balancer and target-group names are fixed constants,
identical across runs. -/
theorem c9_parallel_runs_names_amended (g : Nat → String) :
    (main happyProvider g (Except.ok [])).1 = Res.ok () ∧
    (main happyProvider g (Except.ok [])).2.trace =
      [Call.createVpc Ctx.pipeline "10.0.0.0/16",
       Call.modifyVpcAttribute Ctx.pipeline "vpc-1" true,
       Call.createInternetGateway Ctx.pipeline,
       Call.attachInternetGateway Ctx.todo "igw-1" "vpc-1",
       Call.createRouteTable Ctx.pipeline "vpc-1",
       Call.createRoute Ctx.pipeline "rtb-1" "0.0.0.0/0" "igw-1",
       Call.createSubnet Ctx.pipeline "vpc-1" "10.0.1.0/24" "us-east-1a",
       Call.modifySubnetAttribute Ctx.pipeline "subnet-10.0.1.0/24" true,
       Call.associateRouteTable Ctx.pipeline "rtb-1" "subnet-10.0.1.0/24",
       Call.createSubnet Ctx.pipeline "vpc-1" "10.0.2.0/24" "us-east-1b",
       Call.modifySubnetAttribute Ctx.pipeline "subnet-10.0.2.0/24" true,
       Call.associateRouteTable Ctx.pipeline "rtb-1" "subnet-10.0.2.0/24",
       Call.createSecurityGroup Ctx.pipeline (AWSSecurityGroupPrefixStr ++ g 0)
         AWSSecurityGroupDescription "vpc-1",
       Call.authorizeSecurityGroupIngress Ctx.pipeline "sg-1" ec2IngressPermissions,
       Call.createLaunchTemplate Ctx.pipeline (AWSLaunchTemplatePrefixStr ++ g 1)
         "" AWSAmiID "t2.micro" ["sg-1"],
       Call.createTargetGroup Ctx.pipeline "webservice-target-group" "HTTP" 8080
         "vpc-1" "instance",
       Call.createAutoScalingGroup Ctx.pipeline (AWSAutoscalingGroupPrefixStr ++ g 2)
         "lt-1" AWSLaunchTemplateVersion AWSMinEC2Count AWSMaxEC2Count ["tg-arn-1"]
         "subnet-10.0.1.0/24,subnet-10.0.2.0/24",
       Call.putScalingPolicy Ctx.pipeline (AWSAutoscalingGroupPrefixStr ++ g 2)
         (AWSAutoscalingPolicyPrefixStr ++ g 3) AWSAutoscalingPolicyType
         AWSAutoScalingCPUThreshold "ASGAverageCPUUtilization",
       Call.createLoadBalancer Ctx.pipeline "webservice-load-balancer" "internet-facing"
         ["subnet-10.0.1.0/24", "subnet-10.0.2.0/24"] ["sg-1"] "ipv4" "application",
       Call.createListener Ctx.pipeline "lb-arn-1" "HTTP" 80
         [{ type := "forward",
            forwardConfig := { targetGroups := [{ targetGroupArn := "tg-arn-1" }] } }]] :=
  ⟨rfl, rfl⟩

/-- If the poll loop returns an attempt, all instances were running at that
attempt, and the attempt lies within the bound. -/
theorem pollUntil_some_spec {f : Nat → Bool} :
    ∀ (fuel t0 t : Nat), pollUntilAllRunning f t0 fuel = some t →
      f t = true ∧ t0 ≤ t ∧ t < t0 + fuel := by
  intro fuel
  induction fuel with
  | zero => intro t0 t h; simp [pollUntilAllRunning] at h
  | succ n ih =>
    intro t0 t h
    unfold pollUntilAllRunning at h
    by_cases hf : f t0 = true
    · simp only [hf, if_true, Option.some.injEq] at h
      subst h
      exact ⟨hf, Nat.le_refl _, by omega⟩
    · simp only [hf, if_false] at h
      obtain ⟨h1, h2, h3⟩ := ih _ _ h
      exact ⟨h1, by omega, by omega⟩

/-- If no poll attempt within the bound sees all instances running, the
loop exhausts its fuel and returns nothing. -/
theorem pollUntil_none_spec {f : Nat → Bool} :
    ∀ (fuel t0 : Nat), (∀ t, t0 ≤ t → t < t0 + fuel → f t = false) →
      pollUntilAllRunning f t0 fuel = none := by
  intro fuel
  induction fuel with
  | zero => intro t0 _; rfl
  | succ n ih =>
    intro t0 hfail
    unfold pollUntilAllRunning
    have h0 : f t0 = false := hfail t0 (Nat.le_refl _) (by omega)
    simp only [h0, if_false]
    exact ih (t0 + 1) (fun t h1 h2 => hfail t (by omega) (by omega))

/-- C4: the direct-launch compute variant (modelled from the spec: it is
absent from `src/main.go`, which implements only the autoscaling variant).
Given a provider that launches exactly `N` instances for a min=max=N
request: instance IDs are returned only when every one of the `N` launched
instances reports a running state at some poll attempt within the bound —
exactly `N` running, never a partial set — and when no attempt within the
bound sees all of them running, the result is the timeout error, which is
distinct from the rejection error. -/
theorem c4_direct_launch_all_or_timeout (N : Nat) (launch : Except String (List String))
    (running : Nat → String → Bool) (maxAttempts : Nat)
    (hN : ∀ ids, launch = Except.ok ids → ids.length = N) :
    (∀ ids, directLaunchCompute launch running maxAttempts = Except.ok ids →
      ids.length = N ∧ ∃ t, t < maxAttempts ∧ ids.all (running t) = true ∧
        (ids.filter (running t)).length = N) ∧
    (∀ ids, launch = Except.ok ids →
      (∀ t, t < maxAttempts → ids.all (running t) = false) →
      directLaunchCompute launch running maxAttempts =
        Except.error ComputeError.timeout) ∧
    (∀ e, ComputeError.timeout ≠ ComputeError.rejected e) := by
  refine ⟨?_, ?_, ?_⟩
  · intro ids h
    unfold directLaunchCompute at h
    cases hl : launch with
    | error e => rw [hl] at h; simp at h
    | ok ids0 =>
      rw [hl] at h
      simp only [] at h
      cases hp : pollUntilAllRunning (fun t => ids0.all (running t)) 0 maxAttempts with
      | none => rw [hp] at h; simp at h
      | some t =>
        rw [hp] at h
        simp only [Except.ok.injEq] at h
        subst h
        obtain ⟨hall, -, ht⟩ := pollUntil_some_spec _ _ _ hp
        have hlenN := hN ids0 hl
        refine ⟨hlenN, t, by omega, hall, ?_⟩
        have hfilter : ids0.filter (running t) = ids0 :=
          List.filter_eq_self.mpr (fun a ha => List.all_eq_true.mp hall a ha)
        rw [hfilter]
        exact hlenN
  · intro ids hl hfail
    unfold directLaunchCompute
    rw [hl]
    simp only []
    rw [pollUntil_none_spec maxAttempts 0 (fun t h1 h2 => hfail t (by omega))]
  · intro e h
    exact ComputeError.noConfusion h

/-- C4 witness: the direct-launch theorem instantiated with N = 2, a launch
of two instances, and a provider on which both run from the start. -/
theorem c4_direct_launch_all_or_timeout_witness :
    (∀ ids, (Except.ok ["i-1", "i-2"] : Except String (List String)) = Except.ok ids →
      ids.length = 2) ∧
    ((∀ ids, directLaunchCompute (Except.ok ["i-1", "i-2"]) (fun _ _ => true) 5 =
        Except.ok ids →
      ids.length = 2 ∧ ∃ t, t < 5 ∧ ids.all ((fun _ _ => true) t) = true ∧
        (ids.filter ((fun _ _ => true) t)).length = 2) ∧
    (∀ ids, (Except.ok ["i-1", "i-2"] : Except String (List String)) = Except.ok ids →
      (∀ t, t < 5 → ids.all ((fun _ _ => true) t) = false) →
      directLaunchCompute (Except.ok ["i-1", "i-2"]) (fun _ _ => true) 5 =
        Except.error ComputeError.timeout) ∧
    (∀ e, ComputeError.timeout ≠ ComputeError.rejected e)) :=
  ⟨fun ids h => by cases h; rfl,
   c4_direct_launch_all_or_timeout 2 (Except.ok ["i-1", "i-2"]) (fun _ _ => true) 5
     (fun ids h => by cases h; rfl)⟩

end AwsStack
